import Mathlib

/-!
Shallow embedding of `tensorflow/core/kernels/data/model_dataset_op.cc` and
`tensorflow/core/kernels/data/experimental/easl_service/service_cache_util.cc`.

The mutable per-iterator state (the mu_-guarded fields of
`ModelDatasetOp::Dataset::Iterator`) is a record; each C++ member function
becomes a state-transition function.  The two background loops (`ModelThread`
and `MetricsThread`) are modelled by their loop-local state together with the
body executed on each uncancelled wakeup; int64 fields are `Int` (no value in
these paths can approach 2^63), and the `double` result of `SelfInputTime` is
`Rat` (the only values the claims need, 0 and exact quotients, are exact in
both `double` and `Rat`).
-/

namespace ModelDataset

/-- Constant EnvTime::kSecondsToMillis (1000). -/
def kSecondsToMillis : Int := 1000

/-- Constant `kOptimizationPeriodThresholdMs = 60 * EnvTime::kSecondsToMillis`,
the ceiling for the optimization period (60000 ms). -/
def kOptimizationPeriodThresholdMs : Int := 60 * kSecondsToMillis

/-- The mu_-guarded state of `ModelDatasetOp::Dataset::Iterator`:
`num_input_events_`, `input_time_`, `last_output_time_`, `cancelled_`, the two
lazily started thread handles (`model_thread_`, `metrics_thread_`, modelled as
optional thread identifiers), the resolved `cpu_budget_` and `ram_budget_`
const fields, and a ghost flag `dcheckOK` that stays `true` while every
`DCHECK` executed so far has held (so `dcheckOK = false` marks an assertion
failure in a debug build). -/
structure IterState where
  numInputEvents : Int
  inputTime : Int
  lastOutputTime : Int
  cancelled : Bool
  modelThread : Option Nat
  metricsThread : Option Nat
  cpuBudget : Int
  ramBudget : Int
  dcheckOK : Bool
deriving DecidableEq

/-- The `Iterator` constructor (model_dataset_op.cc lines 121-129): counters
start at zero, no thread is started, `cpu_budget_` resolves a 0 sentinel to
`port::NumSchedulableCPUs()` and `ram_budget_` resolves a 0 sentinel to
`kRamBudgetShare * port::AvailableRam()` with `kRamBudgetShare = 0.5`.  The
C++ computes the latter in `double` and stores it into a const int64; for any
available RAM below 2^53 bytes that value is exactly `availableRam / 2`
(truncating division), which is how it is modelled here. -/
def mkIterator (datasetCpuBudget datasetRamBudget numSchedulableCPUs availableRam : Int) :
    IterState :=
  { numInputEvents := 0
    inputTime := 0
    lastOutputTime := 0
    cancelled := false
    modelThread := none
    metricsThread := none
    cpuBudget := if datasetCpuBudget = 0 then numSchedulableCPUs else datasetCpuBudget
    ramBudget := if datasetRamBudget = 0 then availableRam / 2 else datasetRamBudget
    dcheckOK := true }

/-- `Iterator::RecordInput` (lines 314-320): when `last_output_time_ != 0`, a
debug build checks `DCHECK_LE(last_output_time_, time_nanos)` and the method
accumulates `time_nanos - last_output_time_` into `input_time_` and increments
`num_input_events_`; otherwise it does nothing. -/
def recordInput (timeNanos : Int) (st : IterState) : IterState :=
  if st.lastOutputTime ≠ 0 then
    { st with
      dcheckOK := st.dcheckOK && decide (st.lastOutputTime ≤ timeNanos)
      inputTime := st.inputTime + (timeNanos - st.lastOutputTime)
      numInputEvents := st.numInputEvents + 1 }
  else st

/-- `Iterator::RecordOutput` (lines 322-324): store the timestamp into
`last_output_time_`. -/
def recordOutput (timeNanos : Int) (st : IterState) : IterState :=
  { st with lastOutputTime := timeNanos }

/-- `Iterator::SelfInputTime` (lines 326-332): 0 when `num_input_events_` is
zero, otherwise the quotient `input_time_ / num_input_events_`. -/
def selfInputTime (st : IterState) : Rat :=
  if st.numInputEvents = 0 then 0
  else (st.inputTime : Rat) / (st.numInputEvents : Rat)

/-- One `GetNextInternal` call (lines 146-163) as seen by the recording state:
`RecordInput` with the timestamp taken before pulling from the input, then
`RecordOutput` with the timestamp taken after. -/
def getNextRecordPair (st : IterState) (p : Int × Int) : IterState :=
  recordOutput p.2 (recordInput p.1 st)

/-- The recording state after a sequence of `GetNextInternal` calls whose
(input, output) timestamp pairs are `ps`. -/
def runPairs (st : IterState) (ps : List (Int × Int)) : IterState :=
  ps.foldl getNextRecordPair st

/-- The recording state after a sequence of bare `RecordInput` calls. -/
def runInputs (st : IterState) (ts : List Int) : IterState :=
  ts.foldl (fun s t => recordInput t s) st

/-- `monoPairs lb ps` holds when the flattened timestamp sequence
in1, out1, in2, out2, ... of `ps` is non-decreasing and starts at or above
`lb` — the shape every real trace has, because both timestamps come from the
same monotone clock (`EnvTime::NowNanos`) and the input one is taken first. -/
def monoPairs : Int → List (Int × Int) → Bool
  | _, [] => true
  | lb, (a, b) :: rest => decide (lb ≤ a) && decide (a ≤ b) && monoPairs b rest

/-- `Iterator::EnsureModelThreadStarted` (lines 191-207): start the
optimization thread if `model_thread_` is not yet set, then start the metrics
thread if `metrics_thread_` is not yet set.  The identifiers of the threads
that would be freshly started are passed in. -/
def ensureModelThreadStarted (st : IterState) (modelId metricsId : Nat) : IterState :=
  let st1 := if st.modelThread.isNone then { st with modelThread := some modelId } else st
  if st1.metricsThread.isNone then { st1 with metricsThread := some metricsId } else st1

/-- The thread-start effect of a sequence of `GetNextInternal` calls: each call
invokes `EnsureModelThreadStarted` (line 152), here with the fresh thread
identifiers that call would use. -/
def ensureRun (st : IterState) (ids : List (Nat × Nat)) : IterState :=
  ids.foldl (fun s p => ensureModelThreadStarted s p.1 p.2) st

/-- `Iterator::~Iterator` (lines 131-137): set `cancelled_` and signal the
condition variable. -/
def cancelIterator (st : IterState) : IterState :=
  { st with cancelled := true }

/-- The guard of the inner wait loops of both `ModelThread` (line 280) and
`MetricsThread` (line 223): keep waiting while not cancelled and the next
deadline is still in the future. -/
def waitLoopContinues (cancelled : Bool) (lastMs periodMs nowMs : Int) : Bool :=
  !cancelled && decide (lastMs + periodMs > nowMs)

/-- Loop-local state of `ModelThread` (lines 274-275): `last_optimization_ms`
and `optimization_period_ms`. -/
structure ModelLoopState where
  lastOptimizationMs : Int
  optimizationPeriodMs : Int
deriving DecidableEq

/-- Initial `ModelThread` loop state: `last_optimization_ms = 0`,
`optimization_period_ms = 10`. -/
def modelLoopInit : ModelLoopState :=
  { lastOptimizationMs := 0, optimizationPeriodMs := 10 }

/-- The period update at lines 304-307: unless the period already equals
`kOptimizationPeriodThresholdMs`, double it (`<< 1`) and cap at the
threshold. -/
def nextOptimizationPeriod (p : Int) : Int :=
  if p ≠ kOptimizationPeriodThresholdMs then min (p * 2) kOptimizationPeriodThresholdMs
  else p

/-- The effect of one uncancelled `ModelThread` wakeup on the loop-local state
(lines 296-309): run the optimization, double-and-cap the period, and set
`last_optimization_ms` to the current time. -/
def modelLoopBody (ls : ModelLoopState) (nowMs : Int) : ModelLoopState :=
  { lastOptimizationMs := nowMs
    optimizationPeriodMs := nextOptimizationPeriod ls.optimizationPeriodMs }

/-- The `ModelThread` loop state after a sequence of uncancelled wakeups at
the given times. -/
def modelThreadRun (ls : ModelLoopState) (nows : List Int) : ModelLoopState :=
  nows.foldl modelLoopBody ls

/-- The argument tuple of one `model_->Optimize(...)` call (lines 297-298). -/
structure OptimizeCall where
  algorithm : Int
  cpuBudget : Int
  ramBudget : Int
  modelInputTime : Rat
deriving DecidableEq

/-- One outer iteration of `ModelThread` (lines 277-311) after the wait loop
has exited: if `cancelled_` is observed true the loop returns (`none`) and
calls neither `Optimize` nor `FlushMetrics`; otherwise the local
`model_input_time` is computed as `SelfInputTime()` and `Optimize` is invoked
with `/*model_input_time=*/0`.  The result carries the new loop state, the
computed local, and the argument tuple actually passed to `Optimize`. -/
def modelThreadOuter (cancelled : Bool) (algorithm cpuBudget ramBudget : Int)
    (ist : IterState) (ls : ModelLoopState) (nowMs : Int) :
    Option (ModelLoopState × Rat × OptimizeCall) :=
  if cancelled then none
  else
    some (modelLoopBody ls nowMs, selfInputTime ist,
      { algorithm := algorithm, cpuBudget := cpuBudget, ramBudget := ramBudget
        modelInputTime := 0 })

/-- Loop-local state of `MetricsThread` (lines 215-216):
`last_recording_time_ms` and `recording_period_ms`. -/
structure MetricsLoopState where
  lastRecordingTimeMs : Int
  recordingPeriodMs : Int
deriving DecidableEq

/-- Initial `MetricsThread` loop state: `last_recording_time_ms = 0`,
`recording_period_ms = 10`. -/
def metricsLoopInit : MetricsLoopState :=
  { lastRecordingTimeMs := 0, recordingPeriodMs := 10 }

/-- The effect of one uncancelled `MetricsThread` wakeup on the loop-local
state (lines 239-242): record the current time into `last_recording_time_ms`
and flush the metrics; `recording_period_ms` is never reassigned anywhere in
the loop. -/
def metricsLoopBody (ms : MetricsLoopState) (nowMs : Int) : MetricsLoopState :=
  { lastRecordingTimeMs := nowMs, recordingPeriodMs := ms.recordingPeriodMs }

/-- The `MetricsThread` loop state after a sequence of uncancelled wakeups. -/
def metricsThreadRun (ms : MetricsLoopState) (nows : List Int) : MetricsLoopState :=
  nows.foldl metricsLoopBody ms

/-- One outer iteration of `MetricsThread` (lines 219-270) after the wait loop
has exited: if `cancelled_` is observed true the loop returns (`none`) without
calling `FlushMetrics`; otherwise it runs the body. -/
def metricsThreadOuter (cancelled : Bool) (ms : MetricsLoopState) (nowMs : Int) :
    Option MetricsLoopState :=
  if cancelled then none else some (metricsLoopBody ms nowMs)

/-- Attributes available to the `ModelDatasetOp` kernel constructor: the
optional `algorithm` attr, the required `cpu_budget` attr, and the optional
`ram_budget` attr. -/
structure OpAttrs where
  algorithm : Option Int
  cpuBudget : Int
  ramBudget : Option Int

/-- The configuration a successfully constructed `ModelDatasetOp` holds. -/
structure OpConfig where
  algorithm : Int
  cpuBudget : Int
  ramBudget : Int
deriving DecidableEq

/-- `ModelDatasetOp::ModelDatasetOp` (lines 355-376): `algorithm_` defaults to
HILL_CLIMB (enum value 0) when the attr is absent; `OP_REQUIRES` rejects
`cpu_budget_ < 0` with an InvalidArgument error; a missing `ram_budget` attr
defaults to 0; `OP_REQUIRES` rejects `ram_budget_ < 0` with an InvalidArgument
error.  A failed `OP_REQUIRES` marks the kernel context failed, so no dataset
is ever produced from it. -/
def modelDatasetOpConstruct (attrs : OpAttrs) : Except String OpConfig :=
  if 0 ≤ attrs.cpuBudget then
    if 0 ≤ attrs.ramBudget.getD 0 then
      Except.ok
        { algorithm := attrs.algorithm.getD 0
          cpuBudget := attrs.cpuBudget
          ramBudget := attrs.ramBudget.getD 0 }
    else Except.error "Invalid argument: RAM budget must be positive"
  else Except.error "Invalid argument: CPU budget must be positive"

end ModelDataset

namespace ServiceCacheUtil

/-- Tensors are opaque to the cache writer; their contents never matter. -/
abbrev Tensor := Int

/-- The tensorflow `Status` values the writer code can produce or receive. -/
inductive Status where
  | ok
  | error (msg : String)
deriving DecidableEq

/-- State of `service_cache_util::Writer`: the writes handed to the underlying
`snapshot_util::AsyncWriter`, and a status field standing for the
`writer_status_` the commented-out error propagation would have maintained —
nothing in the compiled code ever assigns it. -/
structure WriterState where
  pending : List (List Tensor)
  writerStatus : Status
deriving DecidableEq

/-- `Writer::Writer` (service_cache_util.cc lines 8-23): fresh state, no
pending writes, status untouched (ok). -/
def writerInit : WriterState :=
  { pending := [], writerStatus := Status.ok }

/-- The `done` callback installed on the AsyncWriter (lines 14-21): its body
is a bare `return;` — the status `s` it receives is discarded and no state is
updated (the propagation code is commented out). -/
def writerDoneCallback (s : Status) (st : WriterState) : WriterState :=
  st

/-- `Writer::Write` (lines 25-29): hand the tensors to the async writer and
return `Status::OK()` unconditionally. -/
def writerWrite (st : WriterState) (tensors : List Tensor) : Status × WriterState :=
  (Status.ok, { st with pending := st.pending ++ [tensors] })

end ServiceCacheUtil

namespace ModelDataset

/-- The threshold constant evaluates to 60000 ms. -/
lemma threshold_eq : kOptimizationPeriodThresholdMs = 60000 := by decide

/-- One double-and-cap step sends `min (10 * 2^k) 60000` to
`min (10 * 2^(k+1)) 60000`. -/
lemma nextOptimizationPeriod_min (k : ℕ) :
    nextOptimizationPeriod (min (10 * 2 ^ k) 60000) = min (10 * 2 ^ (k + 1)) 60000 := by
  have h2 : (0 : ℤ) < 2 ^ k := pow_pos (by norm_num) k
  have hsucc : (10 : ℤ) * 2 ^ (k + 1) = 10 * 2 ^ k * 2 := by
    rw [pow_succ]; ring
  rcases lt_or_le (10 * (2 : ℤ) ^ k) 60000 with h | h
  · have hmin : min (10 * (2 : ℤ) ^ k) 60000 = 10 * 2 ^ k := min_eq_left h.le
    have hne : 10 * (2 : ℤ) ^ k ≠ kOptimizationPeriodThresholdMs := by
      rw [threshold_eq]; exact h.ne
    rw [hmin, nextOptimizationPeriod, if_pos hne, threshold_eq, hsucc]
  · have hmin : min (10 * (2 : ℤ) ^ k) 60000 = 60000 := min_eq_right h
    have hle : (60000 : ℤ) ≤ 10 * 2 ^ (k + 1) := by
      calc (60000 : ℤ) ≤ 10 * 2 ^ k := h
        _ ≤ 10 * 2 ^ k * 2 := by nlinarith
        _ = 10 * 2 ^ (k + 1) := hsucc.symm
    have hres : min ((10 : ℤ) * 2 ^ (k + 1)) 60000 = 60000 := min_eq_right hle
    rw [hmin, hres, nextOptimizationPeriod, threshold_eq]
    simp

/-- Running the optimize loop from a state whose period is
`min (10 * 2^k) 60000` for `l.length` further wakeups leaves the period at
`min (10 * 2^(k + l.length)) 60000`. -/
lemma modelThreadRun_period (l : List Int) : ∀ (k : ℕ) (lastv : Int),
    (modelThreadRun ⟨lastv, min (10 * 2 ^ k) 60000⟩ l).optimizationPeriodMs
      = min (10 * 2 ^ (k + l.length)) 60000 := by
  induction l with
  | nil => intro k lastv; simp [modelThreadRun]
  | cons n rest ih =>
      intro k lastv
      have hstep :
          modelThreadRun ⟨lastv, min (10 * 2 ^ k) 60000⟩ (n :: rest)
            = modelThreadRun ⟨n, nextOptimizationPeriod (min (10 * 2 ^ k) 60000)⟩ rest := rfl
      have hlen : k + 1 + rest.length = k + (n :: rest).length := by
        simp [List.length_cons]; omega
      rw [hstep, nextOptimizationPeriod_min, ih (k + 1) n, hlen]

/-- C4: after any number of consecutive uncancelled optimize-loop wakeups the
period used for the next wait equals `min (10ms * 2^(number of passes), 60000ms)`;
with `k` counting wakeups from 1, the k-th inter-wake period is
`min (10 * 2^(k-1), 60000)`, starting at 10ms and doubling until capped at the
60000ms ceiling. -/
theorem optimizationPeriod_doubles_capped (nows : List Int) :
    (modelThreadRun modelLoopInit nows).optimizationPeriodMs
      = min (10 * 2 ^ nows.length) 60000 := by
  have h0 : modelLoopInit = (⟨0, min (10 * 2 ^ 0) 60000⟩ : ModelLoopState) := by
    simp [modelLoopInit]
  rw [h0, modelThreadRun_period nows 0 0]
  norm_num

/-- C5: the metrics loop's recording period is fixed: every uncancelled
iteration preserves it, it starts at 10ms, and after any number of flushes it
is still 10ms. -/
theorem metricsPeriod_fixed :
    (∀ (ms : MetricsLoopState) (nows : List Int),
      (metricsThreadRun ms nows).recordingPeriodMs = ms.recordingPeriodMs)
    ∧ metricsLoopInit.recordingPeriodMs = 10
    ∧ (∀ nows : List Int,
        (metricsThreadRun metricsLoopInit nows).recordingPeriodMs = 10) := by
  have hrun : ∀ (nows : List Int) (ms : MetricsLoopState),
      (metricsThreadRun ms nows).recordingPeriodMs = ms.recordingPeriodMs := by
    intro nows
    induction nows with
    | nil => intro ms; rfl
    | cons n rest ih => intro ms; exact ih (metricsLoopBody ms n)
  exact ⟨fun ms nows => hrun nows ms, rfl, fun nows => hrun nows metricsLoopInit⟩

/-- C2: on every uncancelled optimize-loop wakeup, the local
`model_input_time` is computed as `SelfInputTime()` from the recorded input
events, yet the `model_input_time` argument passed to `Optimize` is the
constant 0; and there are iterator states whose computed self input time is
nonzero, so the two genuinely differ. -/
theorem optimize_receives_zero_input_time :
    (∀ (alg cpu ram : Int) (ist : IterState) (ls : ModelLoopState) (nowMs : Int),
      modelThreadOuter false alg cpu ram ist ls nowMs
        = some (modelLoopBody ls nowMs, selfInputTime ist,
            { algorithm := alg, cpuBudget := cpu, ramBudget := ram, modelInputTime := 0 }))
    ∧ (∃ ist : IterState, selfInputTime ist ≠ 0) := by
  constructor
  · intro alg cpu ram ist ls nowMs
    rfl
  · refine ⟨⟨1, 5, 7, false, none, none, 4, 100, true⟩, ?_⟩
    norm_num [selfInputTime]

end ModelDataset

namespace ModelDataset

/-- C3: at iterator construction a 0 cpu_budget resolves to the number of
schedulable CPU cores and a 0 ram_budget to half the available system RAM,
while nonzero budgets are used unchanged; and the resolved budgets are
immutable — every state transition of the iterator (RecordInput, RecordOutput,
cancellation at teardown, thread starts) preserves both. -/
theorem budgets_resolved_once_immutable :
    (∀ dc dr ncpu aram : Int,
      (mkIterator dc dr ncpu aram).cpuBudget = (if dc = 0 then ncpu else dc)
      ∧ (mkIterator dc dr ncpu aram).ramBudget = (if dr = 0 then aram / 2 else dr))
    ∧ (∀ (st : IterState) (t : Int),
        (recordInput t st).cpuBudget = st.cpuBudget
        ∧ (recordInput t st).ramBudget = st.ramBudget
        ∧ (recordOutput t st).cpuBudget = st.cpuBudget
        ∧ (recordOutput t st).ramBudget = st.ramBudget
        ∧ (cancelIterator st).cpuBudget = st.cpuBudget
        ∧ (cancelIterator st).ramBudget = st.ramBudget)
    ∧ (∀ (st : IterState) (m k : Nat),
        (ensureModelThreadStarted st m k).cpuBudget = st.cpuBudget
        ∧ (ensureModelThreadStarted st m k).ramBudget = st.ramBudget) := by
  refine ⟨fun dc dr ncpu aram => ⟨rfl, rfl⟩, ?_, ?_⟩
  · intro st t
    refine ⟨?_, ?_, rfl, rfl, rfl, rfl⟩ <;>
      · unfold recordInput
        split <;> rfl
  · intro st m k
    constructor <;>
      · unfold ensureModelThreadStarted
        cases hm : st.modelThread <;> cases hk : st.metricsThread <;> simp [hm, hk]

/-- C7: once the shared cancellation flag is set (as the iterator destructor
does), the inner wait loop of either thread does not continue waiting, the
optimize loop's outer iteration returns without any Optimize or FlushMetrics
call, and the metrics loop's outer iteration returns without any FlushMetrics
call. -/
theorem cancellation_stops_both_loops :
    (∀ st : IterState, (cancelIterator st).cancelled = true)
    ∧ (∀ lastMs periodMs nowMs : Int,
        waitLoopContinues true lastMs periodMs nowMs = false)
    ∧ (∀ (alg cpu ram : Int) (ist : IterState) (ls : ModelLoopState) (nowMs : Int),
        modelThreadOuter true alg cpu ram ist ls nowMs = none)
    ∧ (∀ (ms : MetricsLoopState) (nowMs : Int),
        metricsThreadOuter true ms nowMs = none) := by
  exact ⟨fun st => rfl, fun l p n => rfl, fun alg cpu ram ist ls now => rfl,
    fun ms now => rfl⟩

end ModelDataset

namespace ServiceCacheUtil

/-- C9: `Writer::Write` returns `Status::OK` unconditionally for every input
tensor vector and every writer state; the AsyncWriter completion callback
discards the status it is given (any error included) and changes nothing, so
a Write issued after an error was reported still returns OK and the stored
writer status is never set to an error. -/
theorem write_always_ok :
    (∀ (st : WriterState) (tensors : List Tensor),
      (writerWrite st tensors).1 = Status.ok)
    ∧ (∀ (s : Status) (st : WriterState), writerDoneCallback s st = st)
    ∧ (∀ (s : Status) (st : WriterState) (tensors : List Tensor),
        (writerWrite (writerDoneCallback s st) tensors).1 = Status.ok
        ∧ (writerDoneCallback s st).writerStatus = st.writerStatus) := by
  exact ⟨fun st tensors => rfl, fun s st => rfl, fun s st tensors => ⟨rfl, rfl⟩⟩

end ServiceCacheUtil

namespace ModelDataset

/-- A recordable timestamp-pair sequence whose first pair has its output
timestamp strictly before its input timestamp. -/
def c1Pairs : List (Int × Int) := [(10, 5), (12, 13)]

/-- C1 counterexample: the recorded sequence `c1Pairs` violates
`output_ts[i] >= input_ts[i]` at i = 0 (output 5 < input 10), yet after
running it through RecordInput/RecordOutput no debug assertion has failed
(`dcheckOK` is still true): the DCHECK in RecordInput compares an input
timestamp with the preceding output timestamp, so this violation is not
detectable as an assertion failure. -/
theorem timestamp_ordering_counterexample :
    c1Pairs[0]? = some (10, 5)
    ∧ ¬ ((5 : Int) ≥ 10)
    ∧ (runPairs (mkIterator 1 1 4 1024) c1Pairs).dcheckOK = true := by
  refine ⟨rfl, by decide, by decide⟩

/-- If the flattened timestamp sequence of `ps` is non-decreasing from `lb`
and the state's last output time is at most `lb`, running the pairs keeps
every DCHECK satisfied. -/
lemma runPairs_dcheckOK_of_mono :
    ∀ (ps : List (Int × Int)) (st : IterState) (lb : Int),
      st.dcheckOK = true → st.lastOutputTime ≤ lb → monoPairs lb ps = true →
      (runPairs st ps).dcheckOK = true := by
  intro ps
  induction ps with
  | nil => intro st lb h _ _; exact h
  | cons p rest ih =>
      intro st lb h hle hmono
      obtain ⟨a, b⟩ := p
      simp only [monoPairs, Bool.and_eq_true, decide_eq_true_eq] at hmono
      obtain ⟨⟨hlba, hab⟩, hrest⟩ := hmono
      have hstep : runPairs st ((a, b) :: rest) = runPairs (getNextRecordPair st (a, b)) rest := rfl
      rw [hstep]
      refine ih (getNextRecordPair st (a, b)) b ?_ ?_ hrest
      · unfold getNextRecordPair recordOutput recordInput
        split
        · simp only [Bool.and_eq_true, decide_eq_true_eq]
          exact ⟨h, le_trans hle hlba⟩
        · exact h
      · unfold getNextRecordPair recordOutput
        rfl

/-- A monotone pair sequence has every output timestamp at or after its own
input timestamp. -/
lemma monoPairs_ordered :
    ∀ (ps : List (Int × Int)) (lb : Int), monoPairs lb ps = true →
      ∀ p ∈ ps, p.1 ≤ p.2 := by
  intro ps
  induction ps with
  | nil => intro lb _ p hp; cases hp
  | cons q rest ih =>
      intro lb hmono p hp
      obtain ⟨a, b⟩ := q
      simp only [monoPairs, Bool.and_eq_true, decide_eq_true_eq] at hmono
      obtain ⟨⟨hlba, hab⟩, hrest⟩ := hmono
      rcases List.mem_cons.mp hp with hp | hp
      · rw [hp]; exact hab
      · exact ih b hrest p hp

/-- C1 amended: for timestamp pairs recorded in monotone clock order (the
shape every real trace has, since RecordInput's timestamp is taken before
RecordOutput's), output_ts[i] >= input_ts[i] holds for all i and no debug
assertion fails; the assertion that does exist (DCHECK_LE in RecordInput)
detects a violation of the other ordering — an input timestamp earlier than
the immediately preceding output timestamp makes the debug assertion fail. -/
theorem timestamp_ordering_amended :
    (∀ (ps : List (Int × Int)) (dc dr ncpu aram : Int), monoPairs 0 ps = true →
      (∀ p ∈ ps, p.1 ≤ p.2)
      ∧ (runPairs (mkIterator dc dr ncpu aram) ps).dcheckOK = true)
    ∧ (∀ (st : IterState) (t : Int), st.dcheckOK = true → st.lastOutputTime ≠ 0 →
        t < st.lastOutputTime → (recordInput t st).dcheckOK = false) := by
  constructor
  · intro ps dc dr ncpu aram hmono
    refine ⟨monoPairs_ordered ps 0 hmono, ?_⟩
    exact runPairs_dcheckOK_of_mono ps (mkIterator dc dr ncpu aram) 0 rfl le_rfl hmono
  · intro st t h hne hlt
    unfold recordInput
    rw [if_pos hne]
    simp only [Bool.and_eq_false_iff]
    right
    simpa using not_le.mpr hlt

/-- Witness for the amended C1 theorem at concrete inputs: the monotone trace
[(1,2),(3,4)] is well-ordered and assertion-clean, and an input timestamp 3
arriving before the recorded output timestamp 5 trips the assertion. -/
theorem timestamp_ordering_amended_witness :
    ((∀ p ∈ ([(1, 2), (3, 4)] : List (Int × Int)), p.1 ≤ p.2)
      ∧ (runPairs (mkIterator 1 1 4 1024) [(1, 2), (3, 4)]).dcheckOK = true)
    ∧ (recordInput 3 (⟨0, 0, 5, false, none, none, 1, 1, true⟩ : IterState)).dcheckOK = false :=
  ⟨timestamp_ordering_amended.1 [(1, 2), (3, 4)] 1 1 4 1024 (by decide),
   timestamp_ordering_amended.2 ⟨0, 0, 5, false, none, none, 1, 1, true⟩ 3 rfl
     (by decide) (by decide)⟩

end ModelDataset

namespace ModelDataset

/-- A second call to `EnsureModelThreadStarted` (with any fresh thread
identifiers) is a no-op: after one call both thread slots are occupied. -/
lemma ensureModelThreadStarted_idem (st : IterState) (m k m2 k2 : Nat) :
    ensureModelThreadStarted (ensureModelThreadStarted st m k) m2 k2
      = ensureModelThreadStarted st m k := by
  cases hm : st.modelThread <;> cases hk : st.metricsThread <;>
    simp [ensureModelThreadStarted, hm, hk]

/-- C8: the thread start is idempotent over every sequence of GetNext calls —
all `EnsureModelThreadStarted` calls after the first leave the state
unchanged, and a call made when a thread already exists leaves that thread's
handle exactly as it was, so each of the two threads is started at most
once. -/
theorem threads_started_at_most_once :
    (∀ (st : IterState) (p : Nat × Nat) (ids : List (Nat × Nat)),
      ensureRun (ensureModelThreadStarted st p.1 p.2) ids
        = ensureModelThreadStarted st p.1 p.2)
    ∧ (∀ (st : IterState) (m k t : Nat), st.modelThread = some t →
        (ensureModelThreadStarted st m k).modelThread = some t)
    ∧ (∀ (st : IterState) (m k t : Nat), st.metricsThread = some t →
        (ensureModelThreadStarted st m k).metricsThread = some t) := by
  refine ⟨?_, ?_, ?_⟩
  · intro st p ids
    induction ids with
    | nil => rfl
    | cons i rest ih =>
        have hstep : ensureRun (ensureModelThreadStarted st p.1 p.2) (i :: rest)
            = ensureRun
                (ensureModelThreadStarted (ensureModelThreadStarted st p.1 p.2) i.1 i.2)
                rest := rfl
        rw [hstep, ensureModelThreadStarted_idem]
        exact ih
  · intro st m k t h
    cases hk : st.metricsThread <;> simp [ensureModelThreadStarted, h, hk]
  · intro st m k t h
    cases hm : st.modelThread <;> simp [ensureModelThreadStarted, h, hm]

/-- Witness for C8 at concrete inputs: after the first GetNext starts both
threads, two further GetNext calls change nothing, and existing thread
handles 7 and 8 survive another start call untouched. -/
theorem threads_started_at_most_once_witness :
    ensureRun (ensureModelThreadStarted (mkIterator 1 1 4 1024) 0 1) [(2, 3), (4, 5)]
        = ensureModelThreadStarted (mkIterator 1 1 4 1024) 0 1
    ∧ (ensureModelThreadStarted ⟨0, 0, 0, false, some 7, some 8, 1, 1, true⟩ 2 3).modelThread
        = some 7
    ∧ (ensureModelThreadStarted ⟨0, 0, 0, false, some 7, some 8, 1, 1, true⟩ 2 3).metricsThread
        = some 8 :=
  ⟨threads_started_at_most_once.1 (mkIterator 1 1 4 1024) (0, 1) [(2, 3), (4, 5)],
   threads_started_at_most_once.2.1 ⟨0, 0, 0, false, some 7, some 8, 1, 1, true⟩ 2 3 7 rfl,
   threads_started_at_most_once.2.2 ⟨0, 0, 0, false, some 7, some 8, 1, 1, true⟩ 2 3 8 rfl⟩

/-- Any run of bare RecordInput calls from a state with no recorded output yet
leaves the state untouched. -/
lemma runInputs_no_output :
    ∀ (ts : List Int) (st : IterState), st.lastOutputTime = 0 → runInputs st ts = st := by
  intro ts
  induction ts with
  | nil => intro st _; rfl
  | cons t rest ih =>
      intro st h
      have hnoop : recordInput t st = st := by
        unfold recordInput
        rw [if_neg (by simp [h])]
      have hstep : runInputs st (t :: rest) = runInputs (recordInput t st) rest := rfl
      rw [hstep, hnoop]
      exact ih st h

/-- C10: a RecordInput call made while `last_output_time_ = 0` leaves the
whole state (in particular `input_time_` and `num_input_events_`) unchanged;
SelfInputTime is 0 whenever no input event has been accumulated — the guarded
quotient is never taken with a zero denominator — and it stays 0 from a fresh
iterator across any sequence of RecordInput calls with no intervening
RecordOutput. -/
theorem recordInput_noop_before_output :
    (∀ (st : IterState) (t : Int), st.lastOutputTime = 0 → recordInput t st = st)
    ∧ (∀ st : IterState, st.numInputEvents = 0 → selfInputTime st = 0)
    ∧ (∀ (ts : List Int) (dc dr ncpu aram : Int),
        selfInputTime (runInputs (mkIterator dc dr ncpu aram) ts) = 0) := by
  refine ⟨?_, ?_, ?_⟩
  · intro st t h
    unfold recordInput
    rw [if_neg (by simp [h])]
  · intro st h
    unfold selfInputTime
    rw [if_pos h]
  · intro ts dc dr ncpu aram
    rw [runInputs_no_output ts (mkIterator dc dr ncpu aram) rfl]
    rfl

/-- Witness for C10 at concrete inputs: on a fresh iterator a RecordInput at
time 42 changes nothing, and the self input time of the fresh iterator is
0. -/
theorem recordInput_noop_before_output_witness :
    recordInput 42 (mkIterator 1 1 4 1024) = mkIterator 1 1 4 1024
    ∧ selfInputTime (mkIterator 1 1 4 1024) = 0 :=
  ⟨recordInput_noop_before_output.1 (mkIterator 1 1 4 1024) 42 rfl,
   recordInput_noop_before_output.2.1 (mkIterator 1 1 4 1024) rfl⟩

/-- C6: the kernel constructor rejects every configuration with a negative
cpu_budget or a negative ram_budget with an InvalidArgument error, producing
no configuration (hence no dataset), and accepts every configuration whose
budgets are both >= 0, carrying the given budgets through unchanged. -/
theorem negative_budgets_rejected (attrs : OpAttrs) :
    ((attrs.cpuBudget < 0 ∨ attrs.ramBudget.getD 0 < 0) →
      ∃ msg, modelDatasetOpConstruct attrs = Except.error msg)
    ∧ (0 ≤ attrs.cpuBudget → 0 ≤ attrs.ramBudget.getD 0 →
        modelDatasetOpConstruct attrs
          = Except.ok
              { algorithm := attrs.algorithm.getD 0
                cpuBudget := attrs.cpuBudget
                ramBudget := attrs.ramBudget.getD 0 }) := by
  constructor
  · intro h
    unfold modelDatasetOpConstruct
    split_ifs with h1 h2
    · exfalso
      rcases h with h | h <;> omega
    · exact ⟨_, rfl⟩
    · exact ⟨_, rfl⟩
  · intro h1 h2
    unfold modelDatasetOpConstruct
    rw [if_pos h1, if_pos h2]

/-- Witness for C6 at concrete inputs: cpu_budget = -1 is rejected with an
error, and (algorithm 1, cpu_budget 4, ram_budget 8) constructs successfully
with those exact values. -/
theorem negative_budgets_rejected_witness :
    (∃ msg, modelDatasetOpConstruct ⟨none, -1, none⟩ = Except.error msg)
    ∧ modelDatasetOpConstruct ⟨some 1, 4, some 8⟩ = Except.ok ⟨1, 4, 8⟩ :=
  ⟨(negative_budgets_rejected ⟨none, -1, none⟩).1 (Or.inl (by decide)),
   (negative_budgets_rejected ⟨some 1, 4, some 8⟩).2 (by decide) (by decide)⟩

end ModelDataset
